import Mathlib

/-!
Verification of the dgp_parsers repository: a Lean shallow embedding of the
session/auth client (cameras.py, shared across the three entry-point scripts),
the control-point pipeline (control_points_parser.py), the photo-staleness
check (check_photos.py) and the plan-fact batch loop (plan_fact_parser.py),
together with theorems settling the specification claims.

Modelling conventions used throughout:
  - HTTP traffic is represented by its observable outcome: a status code plus
    the optional decoded JSON body (`none` models a body on which
    `response.json()` raises).
  - JSON documents are represented by structures whose `Option` fields model
    missing keys (the scripts access them through `dict.get` with a default);
    a key that is present but bound to JSON null is not distinguished from a
    missing key except where noted.
  - Python percent-decoding (`urllib.parse.unquote` / `unquote_plus`) is
    modelled at the byte/ASCII level: an escape `%XX` becomes the character
    with code `XX`; multi-byte UTF-8 reassembly is not modelled.
  - Python string truthiness (`if s:`) is modelled by testing for `none` or
    the empty string, and dict truthiness by an explicit emptiness flag.
-/

deriving instance DecidableEq for Except

namespace DgpParsers

/-! # Definitions -/

/-! ## Python string primitives -/

/-- Value of a hexadecimal digit, as used by `urllib.parse.unquote` (both
letter cases accepted). -/
def hexVal (c : Char) : Option Nat :=
  if '0'.toNat ≤ c.toNat ∧ c.toNat ≤ '9'.toNat then some (c.toNat - '0'.toNat)
  else if 'a'.toNat ≤ c.toNat ∧ c.toNat ≤ 'f'.toNat then
    some (c.toNat - 'a'.toNat + 10)
  else if 'A'.toNat ≤ c.toNat ∧ c.toNat ≤ 'F'.toNat then
    some (c.toNat - 'A'.toNat + 10)
  else none

/-- Percent-decoding on character lists: `%XX` with two hex digits becomes the
character with code `XX`; a `%` not followed by two hex digits is kept
literally, as in `urllib.parse.unquote`. -/
def unquoteChars : List Char → List Char
  | [] => []
  | '%' :: c1 :: c2 :: rest =>
    match hexVal c1, hexVal c2 with
    | some h1, some h2 => Char.ofNat (16 * h1 + h2) :: unquoteChars rest
    | _, _ => '%' :: unquoteChars (c1 :: c2 :: rest)
  | c :: rest => c :: unquoteChars rest

/-- Python `urllib.parse.unquote`, modelled at the ASCII level. -/
def unquote (s : String) : String := ⟨unquoteChars s.data⟩

/-- Python `urllib.parse.unquote_plus`: `+` becomes a space, then
percent-decoding is applied. -/
def unquote_plus (s : String) : String :=
  ⟨unquoteChars (s.data.map (fun c => if c = '+' then ' ' else c))⟩

/-- Python substring containment, `pat in s`. -/
def strContains (s pat : String) : Bool := decide (pat.data <:+: s.data)

/-! ## Python dict with string keys (request headers, works dictionaries)

A Python dict is modelled as an association list whose `List.lookup` gives the
dict lookup; `setItem` is `d[k] = v` (overwrite in place or append), and
`setdefault` is `d.setdefault(k, v)`. -/

/-- Request headers / works dictionaries: association lists with dict lookup. -/
abbrev PyDict (β : Type) := List (String × β)

/-- Python `d[k] = v`: replace the existing binding of `k`, or append. -/
def setItem {β : Type} : PyDict β → String → β → PyDict β
  | [], k, v => [(k, v)]
  | (k', v') :: rest, k, v =>
    if k' = k then (k, v) :: rest else (k', v') :: setItem rest k v

/-- Python `d.setdefault(k, v)`: bind `k` to `v` only if `k` is absent. -/
def setdefault {β : Type} (d : PyDict β) (k : String) (v : β) : PyDict β :=
  if (d.lookup k).isSome then d else setItem d k v

/-! ## URL parsing (urllib.parse, as used by `authorize`)

`authorize` only consults `urlparse(url).query`; the `query` component is the
text after the first `?` of the part before the first `#`. -/

/-- Query component of a URL: after the first `?`, before the first `#`. -/
def queryOf (url : String) : List Char :=
  let beforeFrag := url.data.takeWhile (fun c => !(c = '#'))
  ((beforeFrag.dropWhile (fun c => !(c = '?'))).drop 1)

/-- Split a query string on `&`, as `urllib.parse.parse_qsl` does. -/
def splitAmp (l : List Char) : List (List Char) := l.splitOn '&'

/-- One `name=value` chunk of a query string, as `parse_qsl` treats it with
default options: empty chunks, chunks without `=` and chunks with an empty raw
value are dropped; name and value are decoded with `+` as space. -/
def parsePair (l : List Char) : Option (String × String) :=
  if l = [] then none
  else if '=' ∈ l then
    let name := l.takeWhile (fun c => !(c = '='))
    let value := (l.dropWhile (fun c => !(c = '='))).drop 1
    if value = [] then none
    else some (unquote_plus ⟨name⟩, unquote_plus ⟨value⟩)
  else none

/-- All `name=value` pairs of a query string in order; `parse_qs(q)[n][0]` is
the first pair with name `n`, i.e. `List.lookup n` on this list. -/
def parse_qs_pairs (q : List Char) : List (String × String) :=
  (splitAmp q).filterMap parsePair

/-! ## Host extraction (spec-side definition)

The source never computes a URL host: its success check is the Python
substring test `"dashboard-stroi.mos.ru" not in login_response.url`. The spec
speaks of the final URL's host, so the host is defined here, following the
spec's words, for comparison with the source's check: the part after the first
`://`, cut at the first `/`, `?` or `#`, with userinfo (up to the last `@`)
and a `:port` stripped. (Case is preserved.) -/

/-- Characters following the first `://`, or `[]` when there is none. -/
def afterSchemeSep : List Char → List Char
  | [] => []
  | c :: rest =>
    if c = ':' ∧ rest.take 2 = ['/', '/'] then rest.drop 2
    else afterSchemeSep rest

/-- The longest suffix not containing `@`: the part after the last `@`. -/
def afterLastAt (l : List Char) : List Char :=
  ((l.reverse.takeWhile (fun c => !(c = '@'))).reverse)

/-- Host characters of a URL, per the spec's notion of a redirect host. -/
def hostChars (l : List Char) : List Char :=
  (afterLastAt ((afterSchemeSep l).takeWhile
      (fun c => !(c = '/') && !(c = '?') && !(c = '#')))).takeWhile
    (fun c => !(c = ':'))

/-- Host of a URL, following the spec's words (see `hostChars`). -/
def urlHost (url : String) : String := ⟨hostChars url.data⟩

/-! ## The session client — `DashboardstroiClient.authorize` (cameras.py 25-63,
identical in control_points_parser.py and check_photos.py)

The three network calls of the OAuth dance are represented by their observable
outcome: the final resolved URL of the password POST (after redirects) and the
`XSRF-TOKEN` cookie found in the jar afterwards (`none` when the jar has no
such cookie). -/

/-- Observable outcome of the login POST: final URL and the CSRF cookie. -/
structure LoginResponse where
  url : String
  xsrfCookie : Option String
  deriving DecidableEq, Repr

/-- Failures `authorize` can raise. `authFailed` is the Russian-language
redirect-check exception, `tokenMissing` the missing-token exception. -/
inductive AuthError where
  | authFailed
  | tokenMissing
  deriving DecidableEq, Repr

/-- Token state of the client after `authorize`. -/
structure SessionTokens where
  token : Option String
  xsrf_token : Option String
  deriving DecidableEq, Repr

/-- The target application's domain. -/
def targetDomain : String := "dashboard-stroi.mos.ru"

/-- The success check of step 4 of `authorize`:
`"dashboard-stroi.mos.ru" not in login_response.url` raises; so the check
passes exactly when the URL contains the domain as a substring. -/
def redirectCheckPasses (url : String) : Bool := strContains url targetDomain

/-- Step 6 of `authorize`: the retained CSRF token. A missing cookie and an
empty cookie (both falsy) leave `xsrf_token` unset; a non-empty cookie is
decoded with `+` as space (`unquote_plus`). -/
def xsrfOf : Option String → Option String
  | none => none
  | some c => if c = "" then none else some (unquote_plus c)

/-- `DashboardstroiClient.authorize`, steps 4-6: redirect check, `token`
query-parameter extraction (`parse_qs(...).get("token", [None])[0]`, falsy
values rejected, value decoded with `unquote`), CSRF cookie retention. -/
def authorize (r : LoginResponse) : Except AuthError SessionTokens :=
  if redirectCheckPasses r.url = false then .error .authFailed
  else
    match (parse_qs_pairs (queryOf r.url)).lookup "token" with
    | none => .error .tokenMissing
    | some tp =>
      if tp = "" then .error .tokenMissing
      else .ok { token := some (unquote tp), xsrf_token := xsrfOf r.xsrfCookie }

/-! ## Request dispatch — `DashboardstroiClient.get` / `.post` (cameras.py
65-100)

Both methods build the outgoing header dict the same way; only the default
`Accept` value differs. The caller-supplied headers are the popped `headers`
kwarg. -/

/-- Token phase of header construction: `Authorization` is assigned when the
bearer token is truthy (`if self.token:`), `X-XSRF-TOKEN` when the CSRF token
is truthy. -/
def apply_token_headers (token xsrf : Option String)
    (caller : PyDict String) : PyDict String :=
  let h1 : PyDict String :=
    match token with
    | some t =>
      if t = "" then caller else setItem caller "Authorization" ("Bearer " ++ t)
    | none => caller
  match xsrf with
  | some x => if x = "" then h1 else setItem h1 "X-XSRF-TOKEN" x
  | none => h1

/-- Full header construction of `get` / `post`: the token phase followed by
`setdefault` for `Accept` and the AJAX marker `X-Requested-With`. -/
def build_request_headers (token xsrf : Option String) (caller : PyDict String)
    (accept : String) : PyDict String :=
  setdefault (setdefault (apply_token_headers token xsrf caller) "Accept" accept)
    "X-Requested-With" "XMLHttpRequest"

/-- Headers sent by `DashboardstroiClient.get`. -/
def get_headers (s : SessionTokens) (caller : PyDict String) : PyDict String :=
  build_request_headers s.token s.xsrf_token caller "application/json, text/html, */*"

/-- Headers sent by `DashboardstroiClient.post`. -/
def post_headers (s : SessionTokens) (caller : PyDict String) : PyDict String :=
  build_request_headers s.token s.xsrf_token caller "application/json"

/-- Token state used by witnesses: the state produced by a successful
`authorize` with token `abc` and CSRF cookie `x+y`. -/
def sampleTokens : SessionTokens := ⟨some "abc", some "x y"⟩

/-! ## Fetch helpers: JSON endpoints

An HTTP response is represented by its status code and the outcome of
`response.json()`: `decoded = none` models a body on which the JSON decode
raises. -/

/-- Observable outcome of a GET: status code and decoded JSON body. -/
structure HttpResp (α : Type) where
  status : Nat
  decoded : Option α
  deriving DecidableEq, Repr

/-- Python-level exceptions surfaced by the embedding. -/
inductive PyError where
  | jsonDecodeError
  | attributeError
  deriving DecidableEq, Repr

/-- `DashboardstroiClient.get_json` (cameras.py 107-115): on a 200 the decoded
body, with a decode failure caught and turned into `None`; anything else is
`None`. -/
def get_json {α : Type} (resp : HttpResp α) : Option α :=
  if resp.status = 200 then resp.decoded else none

/-- The `{"objects": {"data": [...]}}` envelope of `GET /api/catalog`; both
levels are read with `dict.get` and a `{}` / `[]` default. -/
structure CatalogDoc (α : Type) where
  objects : Option (Option (List α))
  deriving DecidableEq, Repr

/-- `DashboardstroiClient.get_catalog_objects` (cameras.py 117-138): a non-200
yields `[]`, but on a 200 the body is decoded by a bare `response.json()`
call, so a decode failure raises instead of returning `[]`. The optional
`oksStatusArrayName` filter only alters the request parameters, not the
response handling, and is not represented. -/
def get_catalog_objects {α : Type} (resp : HttpResp (CatalogDoc α)) :
    Except PyError (List α) :=
  if resp.status = 200 then
    match resp.decoded with
    | none => .error .jsonDecodeError
    | some d => .ok (((d.objects.getD none)).getD [])
  else .ok []

/-- Nested `project_manager` object of the dashboard snapshot; `name = none`
models a missing `name` key (read with default `"Нет данных"`). -/
structure ManagerDoc where
  name : Option String
  deriving DecidableEq, Repr

/-- The `object` sub-document consulted by `get_manager_name`;
`project_manager = none` models a missing key (read with default `{}`). -/
structure DashObjectDoc where
  project_manager : Option ManagerDoc
  deriving DecidableEq, Repr

/-- Dashboard snapshot as consulted by `get_manager_name`; `object = none`
models a missing `object` key (read with default `{}`). -/
structure DashManagerDoc where
  object : Option DashObjectDoc
  deriving DecidableEq, Repr

/-- `DashboardstroiClient.get_manager_name` (control_points_parser.py
154-166): on a decoded 200 the nested name with the fixed sentinel
`"Нет данных"` as default at the innermost level, but `None` on a decode
failure (the `except` branch) and `None` on any non-200 status (the final
implicit `return None`), despite the `-> str` annotation. -/
def get_manager_name (resp : HttpResp DashManagerDoc) : Option String :=
  if resp.status = 200 then
    match resp.decoded with
    | none => none
    | some d =>
      some ((((d.object.getD ⟨none⟩).project_manager).getD ⟨none⟩).name.getD
        "Нет данных")
  else none

/-! ## Reconciler overdue flag (control_points_parser.py 466-475)

The date columns are produced by `pd.to_datetime(..., errors="coerce")`, so a
missing or unparsable date is `NaT`; pandas comparisons against `NaT` are
always false. Dates are modelled as day ordinals, `none` for `NaT`. -/

/-- Pandas `==` on nullable dates: any comparison involving `NaT` is false,
`NaT == NaT` included. -/
def pdDateEq : Option Nat → Option Nat → Bool
  | some a, some b => a == b
  | _, _ => false

/-- Pandas `<=` on nullable dates: any comparison involving `NaT` is false. -/
def pdDateLe : Option Nat → Option Nat → Bool
  | some a, some b => decide (a ≤ b)
  | _, _ => false

/-- Elementwise `numpy.where`. -/
def np_where (c t e : Bool) : Bool := if c then t else e

/-- The `is_exceeded` column: rows with status `no_control_points` are always
overdue; otherwise a row with equal plan and fact finish dates is never
overdue, and the remaining rows are overdue when the plan finish date is at
most the `today` column (always a real date). -/
def is_exceeded (status : String) (plan fact : Option Nat) (today : Nat) : Bool :=
  np_where (status == "no_control_points") true
    (np_where (pdDateEq plan fact) false (pdDateLe plan (some today)))

/-! ## Control-point retrieval with retry (control_points_parser.py 189-299) -/

/-- One control point of the etapi payload, restricted to the fields the
claims consult; the remaining passthrough fields (progress numbers, audit
timestamps, color) do not affect any claim. -/
structure CtrlPoint where
  name : Option String
  plan_finish_date : Option String
  fact_finish_date : Option String
  deriving DecidableEq, Repr

/-- Decoded `GET /api/etapi/{id}` payload: the `in_progress` / `complete`
point lists behind the `control_points` key (each level read with `dict.get`
and a `{}` / `[]` default, collapsed here into plain lists), plus `truthy`,
the Python truthiness of the decoded top-level dict (`false` exactly for an
empty JSON object). -/
structure EtapiPayload where
  truthy : Bool
  in_progress : List CtrlPoint
  complete : List CtrlPoint
  deriving DecidableEq, Repr

/-- The retry loop `for attempt in range(max_retries)` of `collect_etapi_data`
(control_points_parser.py 211-220), over the remaining attempt numbers:
`fetch n` is the outcome of `get_etapi_data` on attempt `n` (`none` models a
non-200 or a decode failure); the returned list records the `time.sleep`
arguments `(attempt + 1) * 2` issued after each failed attempt, the last one
included. -/
def retry_loop {α : Type} (fetch : Nat → Option α) :
    List Nat → Option α × List Nat
  | [] => (none, [])
  | attempt :: rest =>
    match fetch attempt with
    | some v => (some v, [])
    | none =>
      let r := retry_loop fetch rest
      (r.1, (attempt + 1) * 2 :: r.2)

/-- The retry loop with `max_retries = 3`: attempts `range(3)`. -/
def etapi_retry {α : Type} (fetch : Nat → Option α) : Option α × List Nat :=
  retry_loop fetch [0, 1, 2]

/-- One output row of `collect_etapi_data`, restricted to the fields the
claims consult. -/
structure PointRow where
  status : String
  name : Option String
  plan_finish_date : Option String
  fact_finish_date : Option String
  deriving DecidableEq, Repr

/-- Rows produced for one object from its fetched etapi payload
(control_points_parser.py 222-294): a falsy payload (`if not etapi`, i.e.
`None` or an empty dict) is skipped with no rows; an object with neither
in-progress nor complete points yields one synthetic `no_control_points` row;
otherwise one row per point, `in_progress` before `complete`. -/
def object_rows (etapi : Option EtapiPayload) : List PointRow :=
  match etapi with
  | none => []
  | some e =>
    if e.truthy = false then []
    else if e.in_progress = [] ∧ e.complete = [] then
      [{ status := "no_control_points", name := none, plan_finish_date := none,
         fact_finish_date := none }]
    else
      e.in_progress.map (fun p =>
        { status := "in_progress", name := p.name,
          plan_finish_date := p.plan_finish_date,
          fact_finish_date := p.fact_finish_date })
      ++ e.complete.map (fun p =>
        { status := "complete", name := p.name,
          plan_finish_date := p.plan_finish_date,
          fact_finish_date := p.fact_finish_date })

/-- Retry followed by row production for one object of the collect loop. -/
def collect_object (fetch : Nat → Option EtapiPayload) : List PointRow :=
  object_rows (etapi_retry fetch).1

/-- Fetch outcome used by witnesses: fails twice, succeeds on the third
attempt. -/
def fetchThirdTry : Nat → Option EtapiPayload :=
  fun i => if i = 2 then some ⟨true, [], [⟨some "x", none, none⟩]⟩ else none

/-- Fetch outcome used by witnesses: fails on every attempt. -/
def fetchAlwaysFails : Nat → Option EtapiPayload := fun _ => none

/-! ## Work-ledger name matching (control_points_parser.py 519-561) -/

/-- Python `str.lower()`, modelled at the ASCII level (`Char.toLower` maps
only the basic Latin range; the claims only exercise ASCII names). -/
def pyLower (s : String) : String := ⟨s.data.map Char.toLower⟩

/-- Python `str.strip()`: remove leading and trailing whitespace. -/
def pyStrip (s : String) : String :=
  ⟨((s.data.dropWhile Char.isWhitespace).reverse.dropWhile
      Char.isWhitespace).reverse⟩

/-- One work entry from the SUID work ledger, as shaped by
`SUIDClient.get_works`. -/
structure Work where
  name : String
  start_date : Option String
  end_date : Option String
  fact_end_date : Option String
  deriving DecidableEq, Repr

/-- The `works_dict` built per object in the reconciliation loop
(control_points_parser.py 520-527): keyed by `work["name"].lower()`, a later
entry with the same lowercased name overwriting an earlier one. The stored
value here is the whole work entry; the source stores exactly its three date
fields. -/
def works_dict (works : List Work) : PyDict Work :=
  works.foldl (fun d w => setItem d (pyLower w.name) w) []

/-- The match test of the lookup loop (control_points_parser.py 544-548):
`name.lower() in works_dict`. No trimming is applied on either side. -/
def name_matched (cpName : String) (works : List Work) : Bool :=
  ((works_dict works).lookup (pyLower cpName)).isSome

/-- Spec-side matching rule, defined from the words of claim C5 for
comparison with `name_matched`: case-insensitive equality of the full
*trimmed* name strings. -/
def spec_name_match (a b : String) : Bool :=
  pyLower (pyStrip a) == pyLower (pyStrip b)

/-! ## Plan-fact batch (plan_fact_parser.py 139-245) -/

/-- The `oiv` sub-dict of a construction stage; the values are passthrough
numbers, `none` models a missing key. -/
structure Oiv where
  fact : Option Int
  plan : Option Int
  delta_fact_week : Option Int
  delta_fact_month : Option Int
  delta_plan_week : Option Int
  delta_plan_month : Option Int
  deriving DecidableEq, Repr

/-- A child entry of a stage; `none` models a missing key. The source accepts
`children` as a list or as a dict (iterating `values()`); both are collapsed
here into the list of child dicts considered, which produce identical rows.
Non-dict children, skipped by the source, are not represented. -/
structure StageChild where
  view_name : Option String
  fact_oiv : Option Int
  deriving DecidableEq, Repr

/-- One entry of `constructionStagesData`. -/
structure Stage where
  view_name : Option String
  oiv : Option Oiv
  children : List StageChild
  deriving DecidableEq, Repr

/-- The dashboard document as consulted by `extract_rows`; the three object
fields are the nested `object.id` / `object.name` / `object.uin` reads. -/
structure PlanFactDoc where
  object_id : Option Int
  object_name : Option String
  object_uin : Option String
  constructionStagesData : List Stage
  deriving DecidableEq, Repr

/-- One row built by `extract_rows`. -/
structure PFRow where
  id : Option Int
  name : Option String
  uin : Option String
  view_name : Option String
  fact : Option Int
  plan : Option Int
  fact_delta_week : Option Int
  fact_delta_month : Option Int
  plan_delta_week : Option Int
  plan_delta_month : Option Int
  link : String
  deriving DecidableEq, Repr

/-- Python f-string rendering of the optional object id (`None` prints as
`"None"`). -/
def pyShowId : Option Int → String
  | some n => toString n
  | none => "None"

/-- The dashboard link attached to every row. -/
def dashboardLink (id : Option Int) : String :=
  "https://dashboard-stroi.mos.ru/dashboard/" ++ pyShowId id

/-- The `{}` default used for a missing `oiv` key. -/
def emptyOiv : Oiv := ⟨none, none, none, none, none, none⟩

/-- `DashboardstroiClient.extract_rows` (plan_fact_parser.py 150-217): one
main row per stage from its `oiv` numbers, followed by one row per child that
has both a `view_name` and a `fact_oiv` key, carrying `fact_oiv` as the fact
and null plan/delta columns. -/
def extract_rows (data : PlanFactDoc) : List PFRow :=
  (data.constructionStagesData.map (fun stage =>
    let oiv := stage.oiv.getD emptyOiv
    ({ id := data.object_id, name := data.object_name, uin := data.object_uin,
       view_name := stage.view_name, fact := oiv.fact, plan := oiv.plan,
       fact_delta_week := oiv.delta_fact_week,
       fact_delta_month := oiv.delta_fact_month,
       plan_delta_week := oiv.delta_plan_week,
       plan_delta_month := oiv.delta_plan_month,
       link := dashboardLink data.object_id } : PFRow)
    :: stage.children.filterMap (fun c =>
      match c.view_name, c.fact_oiv with
      | some vn, some fv =>
        some { id := data.object_id, name := data.object_name,
               uin := data.object_uin, view_name := some vn, fact := some fv,
               plan := none, fact_delta_week := none, fact_delta_month := none,
               plan_delta_week := none, plan_delta_month := none,
               link := dashboardLink data.object_id }
      | _, _ => none))).flatten

/-- `DashboardstroiClient.get_dashboard_data` of plan_fact_parser.py
(139-148): the decoded body on a 200, `None` on a decode failure (printed and
swallowed) and `None` on any other status (implicit fall-through). -/
def get_dashboard_data_pf (resp : HttpResp PlanFactDoc) : Option PlanFactDoc :=
  if resp.status = 200 then resp.decoded else none

/-- One iteration of the `__main__` loop (plan_fact_parser.py 241-245):
`extract_rows(data)` applied directly to the fetch result; when the fetch
returned `None` the attribute access `data.get(...)` inside `extract_rows`
raises `AttributeError`. -/
def process_object_pf (resp : HttpResp PlanFactDoc) :
    Except PyError (List PFRow) :=
  match get_dashboard_data_pf resp with
  | some d => .ok (extract_rows d)
  | none => .error .attributeError

/-- The batch loop over all catalog objects: strictly sequential, with no
per-object exception handling, so a raising object aborts the remainder. -/
def process_all_pf : List (HttpResp PlanFactDoc) → Except PyError (List PFRow)
  | [] => .ok []
  | r :: rest =>
    match process_object_pf r with
    | .error e => .error e
    | .ok rows =>
      match process_all_pf rest with
      | .error e => .error e
      | .ok more => .ok (rows ++ more)

/-- Document used by witnesses: a decodable dashboard body with no stages. -/
def sampleDoc : PlanFactDoc := ⟨some 1, some "obj", some "uin", []⟩

/-! ## Photo staleness check (check_photos.py 168-272)

The per-photo network fetch plus md5 of `get_photo_hash` is represented by an
oracle `fh` from the full photo URL to an optional content digest (`none`
models a failed fetch, exactly the cases in which the source yields no
hash). -/

/-- One photo record of the dashboard snapshot; `none` models a missing
key. -/
structure Photo where
  taken_at : Option String
  photo_url : Option String
  deriving DecidableEq, Repr

/-- The parts of the dashboard snapshot consulted by `get_photo_status`:
`photos` is `data.get("photos", [])`, `basePhotoUrl` and the object `uin` are
read with an empty-string default. -/
structure DashPhotoDoc where
  photos : List Photo
  basePhotoUrl : String
  uin : String
  deriving DecidableEq, Repr

/-- Python `s.startswith(pre)`. -/
def pyStartsWith (s pre : String) : Bool := pre.data.isPrefixOf s.data

/-- Date part of a capture timestamp:
`taken_at.split()[0] if " " in taken_at else taken_at`. A timestamp that
contains a space but only whitespace (on which the source raises
`IndexError`) collapses to the empty string here. -/
def dateOnly (t : String) : String :=
  if ' ' ∈ t.data then
    ⟨(t.data.dropWhile Char.isWhitespace).takeWhile (fun c => !(c.isWhitespace))⟩
  else t

/-- The set of distinct capture dates: truthy `taken_at` values reduced to
their date part; the Python set is represented as the deduplicated list. -/
def datesOf (photos : List Photo) : List String :=
  (((photos.filterMap Photo.taken_at).filter (fun t => !(t == ""))).map
    dateOnly).dedup

/-- Code-point comparison of characters. -/
def charLt (a b : Char) : Bool := decide (a.toNat < b.toNat)

/-- Lexicographic code-point order on character lists: the order Python uses
to compare strings. -/
def charListLt : List Char → List Char → Bool
  | _, [] => false
  | [], _ :: _ => true
  | a :: as, b :: bs =>
    if charLt a b then true
    else if charLt b a then false
    else charListLt as bs

/-- Python string `<`. -/
def pyStrLt (a b : String) : Bool := charListLt a.data b.data

/-- Descending insertion, placing the new date before the first smaller
one. -/
def insertDesc (s : String) : List String → List String
  | [] => [s]
  | t :: ts => if pyStrLt t s then s :: t :: ts else t :: insertDesc s ts

/-- `sorted(dates, reverse=True)`: Python string order is code-point
lexicographic, matching the Lean order on `String`. -/
def sortDesc (l : List String) : List String := l.foldr insertDesc []

/-- The distinct capture dates of a document, most recent first. -/
def sortedDates (doc : DashPhotoDoc) : List String :=
  sortDesc (datesOf doc.photos)

/-- `DashboardstroiClient.get_photo_hash` (check_photos.py 253-272): `None`
when any URL component is falsy; otherwise the digest of the bytes fetched
from `basePhotoUrl + uin + "/" + date + "/" + photo_url`, per the oracle. -/
def get_photo_hash (fh : String → Option String) (photo_url : Option String)
    (base uin date : String) : Option String :=
  match photo_url with
  | none => none
  | some u =>
    if u = "" ∨ base = "" ∨ uin = "" ∨ date = "" then none
    else fh (base ++ uin ++ "/" ++ date ++ "/" ++ u)

/-- Photos of one capture date:
`p.get("taken_at", "").startswith(date)`. -/
def photosAt (photos : List Photo) (d : String) : List Photo :=
  photos.filter (fun p => pyStartsWith (p.taken_at.getD "") d)

/-- The truthy hashes collected for the photos of one date
(`if photo_hash: hashes.add(photo_hash)`). -/
def dateHashes (fh : String → Option String) (doc : DashPhotoDoc)
    (d : String) : List String :=
  (photosAt doc.photos d).filterMap (fun p =>
    match get_photo_hash fh p.photo_url doc.basePhotoUrl doc.uin d with
    | some h => if h = "" then none else some h
    | none => none)

/-- The duplicate scan over the older date's photos (check_photos.py
234-243): true at the first photo whose truthy hash already occurs in the
newer date's hash set. -/
def hasDupMatch (fh : String → Option String) (doc : DashPhotoDoc)
    (d0 d1 : String) : Bool :=
  (photosAt doc.photos d1).any (fun p =>
    match get_photo_hash fh p.photo_url doc.basePhotoUrl doc.uin d1 with
    | some h => if h = "" then false else (dateHashes fh doc d0).contains h
    | none => false)

/-- `DashboardstroiClient.get_photo_status` for a decoded 200 body
(check_photos.py 178-247); `yesterday` is the formatted date of today minus
one day. No photos at all yield the no-photos verdict; fewer than two
distinct dates yield the match-present verdict with the flag marking whether
`yesterday` is among the (at most two) most recent dates; two distinct most
recent dates trigger the duplicate scan. (On a non-200 the source returns the
no-photos verdict before reaching this analysis, and a decode failure raises
`NameError` in its `except` branch; neither involves a photo list.) -/
def get_photo_status (fh : String → Option String) (doc : DashPhotoDoc)
    (yesterday : String) : String × Bool :=
  if doc.photos.isEmpty then ("нет фотографий", false)
  else
    let lastTwo := (sortedDates doc).take 2
    let yb := lastTwo.contains yesterday
    match lastTwo with
    | d0 :: d1 :: _ =>
      if d0 ≠ d1 then
        if hasDupMatch fh doc d0 d1 then ("есть совпадение", yb)
        else ("фото в порядке", yb)
      else ("есть совпадение", yb)
    | _ => ("есть совпадение", yb)

/-- Hash oracle used by witnesses: every fetch fails. -/
def fhEmpty : String → Option String := fun _ => none

/-- Hash oracle used by witnesses: every fetch yields the same digest. -/
def fhShared : String → Option String := fun _ => some "H"

/-- Hash oracle used by witnesses: the photo of the most recent date hashes
differently from every other photo. -/
def fhDistinct : String → Option String :=
  fun u => if u = "http://x/U/2024-05-02/a.jpg" then some "H1" else some "H2"

/-- Snapshot used by witnesses: one photo on each of two consecutive days. -/
def photoDoc : DashPhotoDoc :=
  ⟨[⟨some "2024-05-02 10:00:00", some "a.jpg"⟩,
    ⟨some "2024-05-01 09:00:00", some "b.jpg"⟩], "http://x/", "U"⟩

/-! # Theorems: library lemmas about the primitives -/

theorem unquoteChars_ne_nil : ∀ l : List Char, l ≠ [] → unquoteChars l ≠ [] := by
  intro l hl
  rw [unquoteChars.eq_def]
  split
  · exact absurd rfl hl
  · split <;> simp
  · simp

theorem unquote_ne_empty (s : String) (h : s ≠ "") : unquote s ≠ "" := by
  intro hc
  apply unquoteChars_ne_nil s.data
  · intro hd
    apply h
    cases s
    simp_all
  · cases s
    simp only [unquote] at hc
    exact congrArg String.data hc

theorem unquote_plus_ne_empty (s : String) (h : s ≠ "") : unquote_plus s ≠ "" := by
  intro hc
  apply unquoteChars_ne_nil (s.data.map (fun c => if c = '+' then ' ' else c))
  · intro hd
    apply h
    cases s
    simp_all
  · cases s
    simp only [unquote_plus] at hc
    exact congrArg String.data hc

theorem lookup_setItem_self {β : Type} (d : PyDict β) (k : String) (v : β) :
    (setItem d k v).lookup k = some v := by
  induction d with
  | nil => simp [setItem]
  | cons p rest ih =>
    obtain ⟨k', v'⟩ := p
    by_cases h : k' = k
    · subst h
      simp [setItem, List.lookup]
    · simp [setItem, h, List.lookup, ih, beq_false_of_ne (Ne.symm h)]

theorem lookup_setItem_other {β : Type} (d : PyDict β) (k k' : String) (v : β)
    (h : k' ≠ k) : (setItem d k v).lookup k' = d.lookup k' := by
  induction d with
  | nil => simp [setItem, List.lookup, beq_false_of_ne h]
  | cons p rest ih =>
    obtain ⟨k₀, v₀⟩ := p
    by_cases h₀ : k₀ = k
    · subst h₀
      simp [setItem, List.lookup, beq_false_of_ne h]
    · simp only [setItem, if_neg h₀, List.lookup]
      by_cases h₁ : k' = k₀
      · subst h₁
        simp
      · simp [beq_false_of_ne h₁, ih]

theorem lookup_setdefault_absent {β : Type} (d : PyDict β) (k : String) (v : β)
    (h : d.lookup k = none) : (setdefault d k v).lookup k = some v := by
  simp [setdefault, h, lookup_setItem_self]

theorem lookup_setdefault_present {β : Type} (d : PyDict β) (k : String) (v w : β)
    (h : d.lookup k = some w) : (setdefault d k v).lookup k = some w := by
  simp [setdefault, h]

theorem lookup_setdefault_other {β : Type} (d : PyDict β) (k k' : String) (v : β)
    (h : k' ≠ k) : (setdefault d k v).lookup k' = d.lookup k' := by
  by_cases hk : (d.lookup k).isSome <;>
    simp [setdefault, hk, lookup_setItem_other _ _ _ _ h]

theorem afterSchemeSep_suffix (l : List Char) : afterSchemeSep l <:+ l := by
  induction l with
  | nil => simp [afterSchemeSep]
  | cons c rest ih =>
    rw [afterSchemeSep]
    split
    · exact (List.drop_suffix 2 rest).trans (List.suffix_cons c rest)
    · exact ih.trans (List.suffix_cons c rest)

theorem afterLastAt_suffix (l : List Char) : afterLastAt l <:+ l := by
  have h := List.takeWhile_prefix (l := l.reverse) (p := fun c => !(c = '@'))
  rw [afterLastAt]
  rw [← List.reverse_prefix]
  simpa using h

/-- The host characters form a contiguous substring of the URL. -/
theorem hostChars_isInfix (l : List Char) : hostChars l <:+: l := by
  have h1 : afterSchemeSep l <:+: l := (afterSchemeSep_suffix l).isInfix
  have h2 := List.takeWhile_prefix (l := afterSchemeSep l)
    (p := fun c => !(c = '/') && !(c = '?') && !(c = '#'))
  have h3 := afterLastAt_suffix ((afterSchemeSep l).takeWhile
    (fun c => !(c = '/') && !(c = '?') && !(c = '#')))
  have h4 := List.takeWhile_prefix
    (l := afterLastAt ((afterSchemeSep l).takeWhile
      (fun c => !(c = '/') && !(c = '?') && !(c = '#'))))
    (p := fun c => !(c = ':'))
  exact h4.isInfix.trans (h3.isInfix.trans (h2.isInfix.trans h1))

theorem lookup_apply_token_other (token xsrf : Option String)
    (caller : PyDict String) (k : String)
    (h1 : k ≠ "Authorization") (h2 : k ≠ "X-XSRF-TOKEN") :
    (apply_token_headers token xsrf caller).lookup k = caller.lookup k := by
  cases token with
  | none =>
    cases xsrf with
    | none => rfl
    | some x =>
      by_cases hx : x = ""
      · simp [apply_token_headers, hx]
      · simp [apply_token_headers, hx, lookup_setItem_other _ _ _ _ h2]
  | some t =>
    cases xsrf with
    | none =>
      by_cases ht : t = ""
      · simp [apply_token_headers, ht]
      · simp [apply_token_headers, ht, lookup_setItem_other _ _ _ _ h1]
    | some x =>
      by_cases ht : t = "" <;> by_cases hx : x = "" <;>
        simp [apply_token_headers, ht, hx, lookup_setItem_other _ _ _ _ h1,
          lookup_setItem_other _ _ _ _ h2]

theorem lookup_apply_token_auth (t : String) (ht : t ≠ "") (xsrf : Option String)
    (caller : PyDict String) :
    (apply_token_headers (some t) xsrf caller).lookup "Authorization"
      = some ("Bearer " ++ t) := by
  cases xsrf with
  | none => simp [apply_token_headers, ht, lookup_setItem_self]
  | some x =>
    by_cases hx : x = ""
    · simp [apply_token_headers, ht, hx, lookup_setItem_self]
    · simp [apply_token_headers, ht, hx,
        lookup_setItem_other _ "X-XSRF-TOKEN" "Authorization" _ (by decide),
        lookup_setItem_self]

theorem lookup_apply_token_xsrf (token : Option String) (x : String) (hx : x ≠ "")
    (caller : PyDict String) :
    (apply_token_headers token (some x) caller).lookup "X-XSRF-TOKEN" = some x := by
  cases token with
  | none => simp [apply_token_headers, hx, lookup_setItem_self]
  | some t =>
    by_cases ht : t = "" <;> simp [apply_token_headers, ht, hx, lookup_setItem_self]

theorem lookup_apply_token_xsrf_none (token : Option String)
    (caller : PyDict String) :
    (apply_token_headers token none caller).lookup "X-XSRF-TOKEN"
      = caller.lookup "X-XSRF-TOKEN" := by
  cases token with
  | none => rfl
  | some t =>
    by_cases ht : t = "" <;>
      simp [apply_token_headers, ht,
        lookup_setItem_other _ "Authorization" "X-XSRF-TOKEN" _ (by decide)]

theorem lookup_build_other (token xsrf : Option String) (caller : PyDict String)
    (accept : String) (k : String)
    (h1 : k ≠ "Accept") (h2 : k ≠ "X-Requested-With") :
    (build_request_headers token xsrf caller accept).lookup k
      = (apply_token_headers token xsrf caller).lookup k := by
  unfold build_request_headers
  rw [lookup_setdefault_other _ _ _ _ h2, lookup_setdefault_other _ _ _ _ h1]

theorem lookup_build_accept (token xsrf : Option String) (caller : PyDict String)
    (accept : String) :
    (build_request_headers token xsrf caller accept).lookup "Accept"
      = some ((caller.lookup "Accept").getD accept) := by
  unfold build_request_headers
  rw [lookup_setdefault_other _ _ _ _ (by decide)]
  cases hc : caller.lookup "Accept" with
  | none =>
    have h0 : (apply_token_headers token xsrf caller).lookup "Accept" = none := by
      rw [lookup_apply_token_other _ _ _ _ (by decide) (by decide), hc]
    simp [lookup_setdefault_absent _ _ _ h0]
  | some v =>
    have h0 : (apply_token_headers token xsrf caller).lookup "Accept" = some v := by
      rw [lookup_apply_token_other _ _ _ _ (by decide) (by decide), hc]
    simp [lookup_setdefault_present _ _ _ _ h0]

theorem lookup_build_ajax (token xsrf : Option String) (caller : PyDict String)
    (accept : String) :
    (build_request_headers token xsrf caller accept).lookup "X-Requested-With"
      = some ((caller.lookup "X-Requested-With").getD "XMLHttpRequest") := by
  unfold build_request_headers
  cases hc : caller.lookup "X-Requested-With" with
  | none =>
    have h0 : (setdefault (apply_token_headers token xsrf caller) "Accept"
        accept).lookup "X-Requested-With" = none := by
      rw [lookup_setdefault_other _ _ _ _ (by decide),
        lookup_apply_token_other _ _ _ _ (by decide) (by decide), hc]
    simp [lookup_setdefault_absent _ _ _ h0]
  | some v =>
    have h0 : (setdefault (apply_token_headers token xsrf caller) "Accept"
        accept).lookup "X-Requested-With" = some v := by
      rw [lookup_setdefault_other _ _ _ _ (by decide),
        lookup_apply_token_other _ _ _ _ (by decide) (by decide), hc]
    simp [lookup_setdefault_present _ _ _ _ h0]

/-- A successful `authorize` always stores a non-empty bearer token, and any
CSRF token it stores is non-empty as well. -/
theorem authorize_ok_tokens (r : LoginResponse) (s : SessionTokens)
    (h : authorize r = .ok s) :
    (∃ t, s.token = some t ∧ t ≠ "") ∧ (∀ x, s.xsrf_token = some x → x ≠ "") := by
  obtain ⟨st, sx⟩ := s
  unfold authorize at h
  by_cases hp : redirectCheckPasses r.url = false
  · simp [hp] at h
  · rw [if_neg hp] at h
    cases hl : (parse_qs_pairs (queryOf r.url)).lookup "token" with
    | none =>
      rw [hl] at h
      simp at h
    | some tp =>
      rw [hl] at h
      by_cases ht : tp = ""
      · simp [ht] at h
      · simp only [if_neg ht, Except.ok.injEq, SessionTokens.mk.injEq] at h
        obtain ⟨h1, h2⟩ := h
        subst h1
        subst h2
        constructor
        · exact ⟨unquote tp, rfl, unquote_ne_empty tp ht⟩
        · intro x hx
          cases hc : r.xsrfCookie with
          | none =>
            rw [hc] at hx
            simp [xsrfOf] at hx
          | some c =>
            rw [hc] at hx
            by_cases hce : c = ""
            · simp [xsrfOf, hce] at hx
            · simp only [xsrfOf, if_neg hce, Option.some.injEq] at hx
              rw [← hx]
              exact unquote_plus_ne_empty c hce

/-- Membership of a key in a dict built by folding `setItem` over work
entries: present exactly when already present in the accumulator or some
entry lowercases to the key. -/
theorem lookup_works_foldl (key : String) (ws : List Work) (acc : PyDict Work) :
    ((ws.foldl (fun d w => setItem d (pyLower w.name) w) acc).lookup key).isSome
      ↔ ((acc.lookup key).isSome ∨ ∃ w ∈ ws, pyLower w.name = key) := by
  induction ws generalizing acc with
  | nil => simp
  | cons w rest ih =>
    rw [List.foldl_cons, ih]
    constructor
    · rintro (h | h)
      · by_cases hk : pyLower w.name = key
        · exact Or.inr ⟨w, by simp, hk⟩
        · rw [lookup_setItem_other _ _ _ _ (Ne.symm hk)] at h
          exact Or.inl h
      · obtain ⟨w', hw', hkey⟩ := h
        exact Or.inr ⟨w', by simp [hw'], hkey⟩
    · rintro (h | ⟨w', hw', hkey⟩)
      · by_cases hk : pyLower w.name = key
        · refine Or.inl ?_
          rw [hk, lookup_setItem_self]
          rfl
        · refine Or.inl ?_
          rw [lookup_setItem_other _ _ _ _ (Ne.symm hk)]
          exact h
      · rcases List.mem_cons.mp hw' with rfl | hmem
        · refine Or.inl ?_
          rw [hkey, lookup_setItem_self]
          rfl
        · exact Or.inr ⟨w', hmem, hkey⟩

theorem insertDesc_perm (s : String) (l : List String) :
    List.Perm (insertDesc s l) (s :: l) := by
  induction l with
  | nil => exact List.Perm.refl _
  | cons t ts ih =>
    rw [insertDesc]
    split
    · exact List.Perm.refl _
    · exact (List.Perm.cons t ih).trans (List.Perm.swap s t ts)

theorem sortDesc_perm (l : List String) : List.Perm (sortDesc l) l := by
  induction l with
  | nil => exact List.Perm.refl _
  | cons x xs ih =>
    exact (insertDesc_perm x (sortDesc xs)).trans (List.Perm.cons x ih)

/-- The sorted distinct dates are pairwise distinct (they come from a set). -/
theorem sortedDates_nodup (doc : DashPhotoDoc) : (sortedDates doc).Nodup :=
  ((sortDesc_perm (datesOf doc.photos)).nodup_iff).mpr (List.nodup_dedup _)

/-- The duplicate scan succeeds exactly when the two dates share a truthy
hash. -/
theorem hasDupMatch_iff (fh : String → Option String) (doc : DashPhotoDoc)
    (d0 d1 : String) :
    hasDupMatch fh doc d0 d1 = true
      ↔ ∃ h ∈ dateHashes fh doc d1, h ∈ dateHashes fh doc d0 := by
  rw [hasDupMatch, List.any_eq_true]
  constructor
  · rintro ⟨p, hp, hmatch⟩
    cases hg : get_photo_hash fh p.photo_url doc.basePhotoUrl doc.uin d1 with
    | none =>
      rw [hg] at hmatch
      simp at hmatch
    | some h =>
      rw [hg] at hmatch
      by_cases hhe : h = ""
      · simp [hhe] at hmatch
      · simp only [if_neg hhe] at hmatch
        refine ⟨h, ?_, ?_⟩
        · refine List.mem_filterMap.mpr ⟨p, hp, ?_⟩
          rw [hg]
          simp [hhe]
        · simpa using hmatch
  · rintro ⟨h, h1, h0⟩
    obtain ⟨p, hp, hf⟩ := List.mem_filterMap.mp h1
    refine ⟨p, hp, ?_⟩
    cases hg : get_photo_hash fh p.photo_url doc.basePhotoUrl doc.uin d1 with
    | none =>
      rw [hg] at hf
      simp at hf
    | some h' =>
      rw [hg] at hf
      by_cases hh' : h' = ""
      · simp [hh'] at hf
      · simp only [if_neg hh', Option.some.injEq] at hf
        subst hf
        simp only [if_neg hh']
        simpa using h0

/-- A batch whose fetches all succeed produces a row list. -/
theorem process_all_pf_ok (l : List (HttpResp PlanFactDoc))
    (h : ∀ x ∈ l, (get_dashboard_data_pf x).isSome) :
    ∃ rows, process_all_pf l = .ok rows := by
  induction l with
  | nil => exact ⟨[], rfl⟩
  | cons x xs ih =>
    obtain ⟨d, hd⟩ := Option.isSome_iff_exists.mp (h x (by simp))
    obtain ⟨rows, hrows⟩ := ih (fun y hy => h y (by simp [hy]))
    exact ⟨extract_rows d ++ rows,
      by simp [process_all_pf, process_object_pf, hd, hrows]⟩

/-- A batch aborts with `AttributeError` at its first failed fetch. -/
theorem process_all_pf_abort (pre : List (HttpResp PlanFactDoc))
    (r : HttpResp PlanFactDoc) (post : List (HttpResp PlanFactDoc))
    (hpre : ∀ x ∈ pre, (get_dashboard_data_pf x).isSome)
    (hr : get_dashboard_data_pf r = none) :
    process_all_pf (pre ++ r :: post) = .error .attributeError := by
  induction pre with
  | nil => simp [process_all_pf, process_object_pf, hr]
  | cons x xs ih =>
    obtain ⟨d, hd⟩ := Option.isSome_iff_exists.mp (hpre x (by simp))
    have ih2 := ih (fun y hy => hpre y (by simp [hy]))
    simp [process_all_pf, process_object_pf, hd, ih2]

/-! # Theorems: the claims -/

/-- C1 (corrected). The success check of `authorize` is the substring test
`"dashboard-stroi.mos.ru" in login_response.url`, not a host comparison:
`authorize` raises the auth-failure error exactly when the final URL does not
contain the domain as a substring. Every final URL whose host is the target
domain passes the check, but the check can also pass for a URL whose host
does not match (see `claim_C1_cex`). -/
theorem claim_C1_thm (r : LoginResponse) :
    (redirectCheckPasses r.url = false → authorize r = .error .authFailed)
    ∧ (urlHost r.url = targetDomain → authorize r ≠ .error .authFailed) := by
  constructor
  · intro h
    simp [authorize, h]
  · intro h hc
    have hdata : targetDomain.data <:+: r.url.data := by
      have hi := hostChars_isInfix r.url.data
      have he : hostChars r.url.data = targetDomain.data := congrArg String.data h
      rwa [he] at hi
    have hpass : redirectCheckPasses r.url = true := by
      simp [redirectCheckPasses, strContains, hdata]
    rw [authorize, hpass] at hc
    simp only [Bool.true_eq_false, if_false] at hc
    cases hl : (parse_qs_pairs (queryOf r.url)).lookup "token" with
    | none =>
      rw [hl] at hc
      simp at hc
    | some tp =>
      rw [hl] at hc
      by_cases ht : tp = "" <;> simp [ht] at hc

/-- C1, witness: a non-dashboard final URL fails the check, a final URL with
the target host does not raise the auth-failure error. -/
theorem claim_C1_witness :
    authorize ⟨"https://sudir.mos.ru/blitz/login/methods/password", none⟩
      = .error .authFailed
    ∧ authorize ⟨"https://dashboard-stroi.mos.ru/?token=abc", none⟩
      ≠ .error .authFailed :=
  ⟨(claim_C1_thm ⟨"https://sudir.mos.ru/blitz/login/methods/password", none⟩).1
      (by decide),
   (claim_C1_thm ⟨"https://dashboard-stroi.mos.ru/?token=abc", none⟩).2
      (by decide)⟩

/-- C1, counterexample to the claim as stated: a final URL whose host is not
the target domain on which the success check nevertheless passes (and
`authorize` does not raise the auth-failure error), because the domain occurs
in the URL path. -/
theorem claim_C1_cex :
    redirectCheckPasses "https://evil.example/dashboard-stroi.mos.ru" = true
    ∧ urlHost "https://evil.example/dashboard-stroi.mos.ru" ≠ targetDomain
    ∧ authorize ⟨"https://evil.example/dashboard-stroi.mos.ru", none⟩
        ≠ .error .authFailed :=
  ⟨by decide, by decide, by decide⟩

/-- C6 (confirmed). When the final URL passes the redirect check: a missing
`token` query parameter makes `authorize` fail with the token-missing error;
with a present non-empty `token` parameter `authorize` succeeds and the
stored bearer token is the percent-decoded parameter value. The CSRF cookie
is optional: when absent nothing is retained and `authorize` still succeeds,
when present its `+`-as-space percent-decoding is retained. -/
theorem claim_C6_thm (r : LoginResponse)
    (hpass : redirectCheckPasses r.url = true) :
    ((parse_qs_pairs (queryOf r.url)).lookup "token" = none →
      authorize r = .error .tokenMissing)
    ∧ (∀ tp, (parse_qs_pairs (queryOf r.url)).lookup "token" = some tp →
        tp ≠ "" →
        authorize r
          = .ok { token := some (unquote tp), xsrf_token := xsrfOf r.xsrfCookie })
    ∧ xsrfOf none = none
    ∧ (∀ c, c ≠ "" → xsrfOf (some c) = some (unquote_plus c)) := by
  refine ⟨?_, ?_, rfl, ?_⟩
  · intro h
    simp [authorize, hpass, h]
  · intro tp h ht
    simp [authorize, hpass, h, ht]
  · intro c hc
    simp [xsrfOf, hc]

/-- C6, witness: a dashboard URL without a `token` parameter fails with the
token-missing error; with a token and a `+`-encoded CSRF cookie both tokens
are decoded and stored. -/
theorem claim_C6_witness :
    authorize ⟨"https://dashboard-stroi.mos.ru/oauth/login-internal", none⟩
      = .error .tokenMissing
    ∧ authorize ⟨"https://dashboard-stroi.mos.ru/?token=abc", some "x+y"⟩
      = .ok { token := some "abc", xsrf_token := some "x y" } := by
  constructor
  · exact (claim_C6_thm ⟨"https://dashboard-stroi.mos.ru/oauth/login-internal", none⟩
      (by decide)).1 (by decide)
  · have h := (claim_C6_thm ⟨"https://dashboard-stroi.mos.ru/?token=abc", some "x+y"⟩
      (by decide)).2.1 "abc" (by decide) (by decide)
    rw [h]
    decide

/-- C7 (confirmed). Header attachment of the `get`/`post` primitives: after a
successful authorization the `Authorization: Bearer` header is attached, and
the `X-XSRF-TOKEN` header is attached whenever a CSRF token is held; with
both tokens unset (the state before authorization) neither header is touched;
the default `Accept` and the AJAX marker `X-Requested-With` are set only when
the caller supplies no value of their own. `accept` ranges over the two
per-method defaults, see `get_headers` and `post_headers`. -/
theorem claim_C7_thm (r : LoginResponse) (s : SessionTokens)
    (caller : PyDict String) (accept : String) (hs : authorize r = .ok s) :
    (∃ t, s.token = some t ∧
      (build_request_headers s.token s.xsrf_token caller accept).lookup
        "Authorization" = some ("Bearer " ++ t))
    ∧ (∀ x, s.xsrf_token = some x →
      (build_request_headers s.token s.xsrf_token caller accept).lookup
        "X-XSRF-TOKEN" = some x)
    ∧ (s.xsrf_token = none →
      (build_request_headers s.token s.xsrf_token caller accept).lookup
        "X-XSRF-TOKEN" = caller.lookup "X-XSRF-TOKEN")
    ∧ ((build_request_headers none none caller accept).lookup "Authorization"
        = caller.lookup "Authorization")
    ∧ ((build_request_headers none none caller accept).lookup "X-XSRF-TOKEN"
        = caller.lookup "X-XSRF-TOKEN")
    ∧ ((build_request_headers s.token s.xsrf_token caller accept).lookup "Accept"
        = some ((caller.lookup "Accept").getD accept))
    ∧ ((build_request_headers s.token s.xsrf_token caller accept).lookup
        "X-Requested-With"
        = some ((caller.lookup "X-Requested-With").getD "XMLHttpRequest"))
    ∧ get_headers s caller
        = build_request_headers s.token s.xsrf_token caller
            "application/json, text/html, */*"
    ∧ post_headers s caller
        = build_request_headers s.token s.xsrf_token caller "application/json" := by
  obtain ⟨⟨t, hst, htne⟩, hxne⟩ := authorize_ok_tokens r s hs
  refine ⟨⟨t, hst, ?_⟩, ?_, ?_, ?_, ?_, lookup_build_accept _ _ _ _,
    lookup_build_ajax _ _ _ _, rfl, rfl⟩
  · rw [lookup_build_other _ _ _ _ _ (by decide) (by decide), hst]
    exact lookup_apply_token_auth t htne _ _
  · intro x hxx
    rw [lookup_build_other _ _ _ _ _ (by decide) (by decide), hxx]
    exact lookup_apply_token_xsrf _ x (hxne x hxx) _
  · intro hnone
    rw [lookup_build_other _ _ _ _ _ (by decide) (by decide), hnone]
    exact lookup_apply_token_xsrf_none _ _
  · rw [lookup_build_other _ _ _ _ _ (by decide) (by decide)]
    rfl
  · rw [lookup_build_other _ _ _ _ _ (by decide) (by decide)]
    rfl

/-- C7, witness: with the token state of a concrete successful authorization
the bearer and CSRF headers are attached; with no tokens the authorization
header stays absent; a caller-supplied `Accept` survives and an absent one is
defaulted. -/
theorem claim_C7_witness :
    (∃ t, sampleTokens.token = some t ∧
      (build_request_headers sampleTokens.token sampleTokens.xsrf_token []
        "application/json").lookup "Authorization" = some ("Bearer " ++ t))
    ∧ (build_request_headers sampleTokens.token sampleTokens.xsrf_token []
        "application/json").lookup "X-XSRF-TOKEN" = some "x y"
    ∧ (build_request_headers none none [("Accept", "text/csv")]
        "application/json").lookup "Authorization" = none
    ∧ (build_request_headers sampleTokens.token sampleTokens.xsrf_token
        [("Accept", "text/csv")] "application/json").lookup "Accept"
        = some "text/csv"
    ∧ (build_request_headers sampleTokens.token sampleTokens.xsrf_token []
        "application/json").lookup "Accept" = some "application/json" := by
  have h1 := claim_C7_thm ⟨"https://dashboard-stroi.mos.ru/?token=abc", some "x+y"⟩
    sampleTokens [] "application/json" (by decide)
  have h2 := claim_C7_thm ⟨"https://dashboard-stroi.mos.ru/?token=abc", some "x+y"⟩
    sampleTokens [("Accept", "text/csv")] "application/json" (by decide)
  refine ⟨h1.1, h1.2.1 "x y" rfl, ?_, ?_, ?_⟩
  · rw [h2.2.2.2.1]
    rfl
  · rw [h2.2.2.2.2.2.1]
    rfl
  · rw [h1.2.2.2.2.2.1]
    rfl

/-- C8 (code_bug). `get_manager_name` is annotated `-> str` and is meant to
yield the sentinel `"Нет данных"` instead of null, and it does so when the
nested manager object or its name is absent in a decoded 200 body; but on a
non-200 response and on a decode failure it returns `None`, contradicting the
annotation and the claim. -/
theorem claim_C8_thm :
    get_manager_name ⟨500, none⟩ = none
    ∧ get_manager_name ⟨200, none⟩ = none
    ∧ get_manager_name ⟨200, some ⟨some ⟨none⟩⟩⟩ = some "Нет данных"
    ∧ get_manager_name ⟨200, some ⟨none⟩⟩ = some "Нет данных" :=
  ⟨rfl, rfl, rfl, rfl⟩

/-- C10 (confirmed). `get_catalog_objects` returns the empty list on every
non-200 response; on a 200 whose body fails to decode it raises the JSON
decode error, unlike `get_json`, which returns null on the same response. -/
theorem claim_C10_thm (α : Type) (resp : HttpResp (CatalogDoc α)) :
    (resp.status ≠ 200 → get_catalog_objects resp = .ok [])
    ∧ (resp.status = 200 → resp.decoded = none →
        get_catalog_objects resp = .error .jsonDecodeError
        ∧ get_json resp = none) := by
  constructor
  · intro h
    simp [get_catalog_objects, h]
  · intro h hd
    constructor <;> simp [get_catalog_objects, get_json, h, hd]

/-- C10, witness: a 500 catalog response yields the empty list; an
undecodable 200 raises from `get_catalog_objects` yet yields null from
`get_json`. -/
theorem claim_C10_witness :
    get_catalog_objects (⟨500, none⟩ : HttpResp (CatalogDoc Nat)) = .ok []
    ∧ get_catalog_objects (⟨200, none⟩ : HttpResp (CatalogDoc Nat))
        = .error .jsonDecodeError
    ∧ get_json (⟨200, none⟩ : HttpResp (CatalogDoc Nat)) = none := by
  refine ⟨(claim_C10_thm Nat ⟨500, none⟩).1 (by decide), ?_, ?_⟩
  · exact ((claim_C10_thm Nat ⟨200, none⟩).2 rfl rfl).1
  · exact ((claim_C10_thm Nat ⟨200, none⟩).2 rfl rfl).2

/-- C2 (confirmed). The `is_exceeded` column: a `no_control_points` row is
overdue regardless of its dates; any other row is overdue exactly when its
plan and fact finish dates differ (under the pandas comparison, where `NaT`
equals nothing) and the plan finish date is at most today (false for `NaT`);
for rows with both dates present this is plain inequality and order on
dates. -/
theorem claim_C2_thm (status : String) (plan fact : Option Nat) (today : Nat) :
    (status = "no_control_points" → is_exceeded status plan fact today = true)
    ∧ (status ≠ "no_control_points" →
        (is_exceeded status plan fact today = true
          ↔ (pdDateEq plan fact = false ∧ pdDateLe plan (some today) = true)))
    ∧ (∀ p f, status ≠ "no_control_points" → plan = some p → fact = some f →
        (is_exceeded status plan fact today = true ↔ (p ≠ f ∧ p ≤ today))) := by
  refine ⟨?_, ?_, ?_⟩
  · intro h
    simp [is_exceeded, np_where, h]
  · intro h
    simp only [is_exceeded, np_where, beq_false_of_ne h, if_false]
    by_cases he : pdDateEq plan fact <;> simp [he]
  · intro p f h hp hf
    subst hp
    subst hf
    simp only [is_exceeded, np_where, beq_false_of_ne h, if_false, pdDateEq,
      pdDateLe]
    by_cases he : p = f <;> simp [he]

/-- C2, witness: a `no_control_points` row with null dates is overdue; equal
dates are never overdue; a differing past plan date is overdue; a differing
future plan date is not. -/
theorem claim_C2_witness :
    is_exceeded "no_control_points" none none 100 = true
    ∧ is_exceeded "in_progress" (some 50) (some 50) 100 = false
    ∧ is_exceeded "in_progress" (some 50) (some 60) 100 = true
    ∧ is_exceeded "complete" (some 200) (some 60) 100 = false := by
  refine ⟨(claim_C2_thm "no_control_points" none none 100).1 rfl, ?_, ?_, ?_⟩
  · have h := (claim_C2_thm "in_progress" (some 50) (some 50) 100).2.2 50 50
      (by decide) rfl rfl
    cases hx : is_exceeded "in_progress" (some 50) (some 50) 100
    · rfl
    · exact absurd rfl (h.mp hx).1
  · exact ((claim_C2_thm "in_progress" (some 50) (some 60) 100).2.2 50 60
      (by decide) rfl rfl).mpr ⟨by decide, by decide⟩
  · have h := (claim_C2_thm "complete" (some 200) (some 60) 100).2.2 200 60
      (by decide) rfl rfl
    cases hx : is_exceeded "complete" (some 200) (some 60) 100
    · rfl
    · exact absurd (h.mp hx).2 (by decide)

/-- C4 (confirmed). The retry of control-point retrieval: the outcome depends
only on the first three attempts (so a fetch is attempted at most 3 times); a
fetch failing twice and succeeding on the third attempt yields the successful
result after exactly the two backoff delays 2 and 4; when all three attempts
fail the retry yields nothing after delays 2, 4, 6 and the object contributes
no rows at all. -/
theorem claim_C4_thm (f g : Nat → Option EtapiPayload) :
    ((∀ i, i < 3 → f i = g i) → etapi_retry f = etapi_retry g)
    ∧ (∀ v, f 0 = none → f 1 = none → f 2 = some v →
        etapi_retry f = (some v, [2, 4]))
    ∧ (f 0 = none → f 1 = none → f 2 = none →
        etapi_retry f = (none, [2, 4, 6]) ∧ collect_object f = []) := by
  refine ⟨?_, ?_, ?_⟩
  · intro h
    have h0 := h 0 (by omega)
    have h1 := h 1 (by omega)
    have h2 := h 2 (by omega)
    simp [etapi_retry, retry_loop, h0, h1, h2]
  · intro v hf0 hf1 hf2
    simp [etapi_retry, retry_loop, hf0, hf1, hf2]
  · intro hf0 hf1 hf2
    constructor
    · simp [etapi_retry, retry_loop, hf0, hf1, hf2]
    · simp [collect_object, object_rows, etapi_retry, retry_loop, hf0, hf1, hf2]

/-- C4, witness: a concrete fetch succeeding on the third attempt returns its
payload with delays 2, 4; a concrete always-failing fetch exhausts the three
attempts and produces no rows. -/
theorem claim_C4_witness :
    etapi_retry fetchThirdTry
      = (some ⟨true, [], [⟨some "x", none, none⟩]⟩, [2, 4])
    ∧ etapi_retry fetchAlwaysFails = (none, [2, 4, 6])
    ∧ collect_object fetchAlwaysFails = [] := by
  refine ⟨(claim_C4_thm fetchThirdTry fetchThirdTry).2.1 _ rfl rfl rfl, ?_, ?_⟩
  · exact ((claim_C4_thm fetchAlwaysFails fetchAlwaysFails).2.2 rfl rfl rfl).1
  · exact ((claim_C4_thm fetchAlwaysFails fetchAlwaysFails).2.2 rfl rfl rfl).2

/-- C5 (corrected). The work-ledger match test lowercases both names but does
not trim them: a control-point name matches exactly when some ledger entry is
equal to it after lowercasing the full untrimmed strings. Case differences do
not prevent a match; extra interior whitespace, extra characters, and also
leading or trailing whitespace all do (the spec wrongly allows the latter,
see `claim_C5_cex`). -/
theorem claim_C5_thm (cpName : String) (works : List Work) :
    (name_matched cpName works = true →
      ∃ w ∈ works, pyLower w.name = pyLower cpName)
    ∧ (∀ w, w ∈ works → pyLower w.name = pyLower cpName →
      name_matched cpName works = true) := by
  have h := lookup_works_foldl (pyLower cpName) works []
  constructor
  · intro hm
    have h2 := h.mp (by simpa [name_matched, works_dict] using hm)
    simpa using h2
  · intro w hw hn
    have h2 := h.mpr (Or.inr ⟨w, hw, hn⟩)
    simpa [name_matched, works_dict] using h2

/-- C5, witness: a name differing from the ledger entry only in letter case
matches. -/
theorem claim_C5_witness :
    name_matched "FOUNDATION Pour"
      [{ name := "foundation pour", start_date := none, end_date := none,
         fact_end_date := none }] = true :=
  (claim_C5_thm "FOUNDATION Pour"
    [{ name := "foundation pour", start_date := none, end_date := none,
       fact_end_date := none }]).2
    { name := "foundation pour", start_date := none, end_date := none,
      fact_end_date := none } (by decide) (by decide)

/-- C5, counterexample to the claim as stated: a control-point name with a
trailing space and a ledger entry equal to it after trimming and lowercasing
match under the spec rule but not in the code. -/
theorem claim_C5_cex :
    spec_name_match "Foundation Pour " "foundation pour" = true
    ∧ name_matched "Foundation Pour "
        [{ name := "foundation pour", start_date := none, end_date := none,
           fact_end_date := none }] = false := by
  constructor <;> decide

/-- C9 (corrected). In the plan-fact batch a per-object fetch failure
(non-200 or decode failure) yields `None` from `get_dashboard_data`, but the
main loop passes that `None` straight to `extract_rows`, which raises: the
first failing object aborts the whole batch instead of being skipped. A batch
whose fetches all succeed completes with the concatenated rows. -/
theorem claim_C9_thm (pre post : List (HttpResp PlanFactDoc))
    (r : HttpResp PlanFactDoc) :
    (r.status ≠ 200 ∨ r.decoded = none → get_dashboard_data_pf r = none)
    ∧ ((∀ x ∈ pre, (get_dashboard_data_pf x).isSome) →
        get_dashboard_data_pf r = none →
        process_all_pf (pre ++ r :: post) = .error .attributeError)
    ∧ ((∀ x ∈ pre, (get_dashboard_data_pf x).isSome) →
        ∃ rows, process_all_pf pre = .ok rows) := by
  refine ⟨?_, fun hpre hr => process_all_pf_abort pre r post hpre hr,
    process_all_pf_ok pre⟩
  rintro (h | h) <;> simp [get_dashboard_data_pf, h]

/-- C9, witness: a batch starting with a 500 response aborts with
`AttributeError` before reaching the healthy second object; a batch of one
healthy object produces rows. -/
theorem claim_C9_witness :
    process_all_pf [⟨500, none⟩, ⟨200, some sampleDoc⟩] = .error .attributeError
    ∧ ∃ rows, process_all_pf [(⟨200, some sampleDoc⟩ : HttpResp PlanFactDoc)]
        = .ok rows := by
  constructor
  · exact (claim_C9_thm [] [⟨200, some sampleDoc⟩] ⟨500, none⟩).2.1
      (by simp) (by decide)
  · exact (claim_C9_thm [⟨200, some sampleDoc⟩] [] ⟨500, none⟩).2.2 (by decide)

/-- C9, counterexample to the claim as stated: a batch containing one failing
fetch followed by a healthy object does not continue with the remaining
objects but raises, so a single fetch failure aborts the run. -/
theorem claim_C9_cex :
    process_all_pf [⟨404, none⟩, ⟨200, some sampleDoc⟩]
      = .error .attributeError := by
  decide

/-- C3 (confirmed). The photo-status classification: an empty photo list
yields the no-photos verdict with a false yesterday flag; a non-empty list
with fewer than two distinct capture dates yields the match-present verdict,
the flag true exactly when the only (hence most recent) date is yesterday;
with at least two distinct dates the two most recent are compared and the
verdict is match-present exactly when they share a truthy content hash,
photos-OK exactly when their hash sets are disjoint. -/
theorem claim_C3_thm (fh : String → Option String) (doc : DashPhotoDoc)
    (yesterday : String) :
    (doc.photos = [] →
      get_photo_status fh doc yesterday = ("нет фотографий", false))
    ∧ (doc.photos ≠ [] → (sortedDates doc).length ≤ 1 →
        (get_photo_status fh doc yesterday).1 = "есть совпадение"
        ∧ ((get_photo_status fh doc yesterday).2 = true
            ↔ (sortedDates doc).head? = some yesterday))
    ∧ (∀ d0 d1 rest, doc.photos ≠ [] → sortedDates doc = d0 :: d1 :: rest →
        ((get_photo_status fh doc yesterday).1 = "есть совпадение"
          ↔ ∃ h ∈ dateHashes fh doc d1, h ∈ dateHashes fh doc d0)
        ∧ ((get_photo_status fh doc yesterday).1 = "фото в порядке"
          ↔ ¬ ∃ h ∈ dateHashes fh doc d1, h ∈ dateHashes fh doc d0)) := by
  refine ⟨?_, ?_, ?_⟩
  · intro h
    simp [get_photo_status, h]
  · intro hne hlen
    have hP : doc.photos.isEmpty = false := by
      cases hph : doc.photos with
      | nil => exact absurd hph hne
      | cons a l => rfl
    cases hs : sortedDates doc with
    | nil =>
      have hval : get_photo_status fh doc yesterday
          = ("есть совпадение", false) := by
        unfold get_photo_status
        rw [if_neg (show ¬ doc.photos.isEmpty = true by simp [hP]), hs]
        rfl
      rw [hval]
      simp
    | cons d ds =>
      cases ds with
      | nil =>
        have hval : get_photo_status fh doc yesterday
            = ("есть совпадение", [d].contains yesterday) := by
          unfold get_photo_status
          rw [if_neg (show ¬ doc.photos.isEmpty = true by simp [hP]), hs]
          rfl
        rw [hval]
        refine ⟨rfl, ?_⟩
        by_cases hd : yesterday = d
        · subst hd
          simp
        · simp [List.contains_cons, beq_false_of_ne hd, Ne.symm hd]
          exact hd
      | cons e es =>
        rw [hs] at hlen
        simp at hlen
  · intro d0 d1 rest hne hs
    have hP : doc.photos.isEmpty = false := by
      cases hph : doc.photos with
      | nil => exact absurd hph hne
      | cons a l => rfl
    have hnd := sortedDates_nodup doc
    rw [hs] at hnd
    have h01 : d0 ≠ d1 := by
      intro he
      exact (List.nodup_cons.mp hnd).1 (by rw [he]; simp)
    have hgs : get_photo_status fh doc yesterday
        = (if hasDupMatch fh doc d0 d1
            then ("есть совпадение", [d0, d1].contains yesterday)
            else ("фото в порядке", [d0, d1].contains yesterday)) := by
      unfold get_photo_status
      rw [if_neg (show ¬ doc.photos.isEmpty = true by simp [hP]), hs]
      show (if d0 ≠ d1 then
              (if hasDupMatch fh doc d0 d1
                then ("есть совпадение", [d0, d1].contains yesterday)
                else ("фото в порядке", [d0, d1].contains yesterday))
            else ("есть совпадение", [d0, d1].contains yesterday)) = _
      rw [if_pos h01]
    cases hm : hasDupMatch fh doc d0 d1 with
    | true =>
      have hex := (hasDupMatch_iff fh doc d0 d1).mp hm
      have hfst : (get_photo_status fh doc yesterday).1 = "есть совпадение" := by
        rw [hgs, if_pos (by simp [hm])]
      refine ⟨⟨fun _ => hex, fun _ => hfst⟩, ?_, ?_⟩
      · intro hcontra
        rw [hfst] at hcontra
        exact absurd hcontra (by decide)
      · intro hnex
        exact absurd hex hnex
    | false =>
      have hnex : ¬ ∃ h ∈ dateHashes fh doc d1, h ∈ dateHashes fh doc d0 := by
        intro hex
        have hc := (hasDupMatch_iff fh doc d0 d1).mpr hex
        rw [hm] at hc
        exact absurd hc (by decide)
      have hfst : (get_photo_status fh doc yesterday).1 = "фото в порядке" := by
        rw [hgs, if_neg (by simp [hm])]
      refine ⟨⟨?_, ?_⟩, fun _ => hnex, fun _ => hfst⟩
      · intro hcontra
        rw [hfst] at hcontra
        exact absurd hcontra (by decide)
      · intro hex
        exact absurd hex hnex

/-- C3, witness: the four cases of the classification at concrete inputs: no
photos; a single capture date equal to yesterday; two dates sharing a hash;
two dates with disjoint hashes. -/
theorem claim_C3_witness :
    get_photo_status fhEmpty ⟨[], "", ""⟩ "2024-05-01"
      = ("нет фотографий", false)
    ∧ (get_photo_status fhEmpty
        ⟨[⟨some "2024-05-01 08:00:00", none⟩], "", ""⟩ "2024-05-01").1
      = "есть совпадение"
    ∧ (get_photo_status fhEmpty
        ⟨[⟨some "2024-05-01 08:00:00", none⟩], "", ""⟩ "2024-05-01").2 = true
    ∧ (get_photo_status fhShared photoDoc "2024-05-03").1 = "есть совпадение"
    ∧ (get_photo_status fhDistinct photoDoc "2024-05-03").1
      = "фото в порядке" := by
  have h1 := (claim_C3_thm fhEmpty
    ⟨[⟨some "2024-05-01 08:00:00", none⟩], "", ""⟩ "2024-05-01").2.1
    (by decide) (by decide)
  refine ⟨(claim_C3_thm fhEmpty ⟨[], "", ""⟩ "2024-05-01").1 rfl,
    h1.1, h1.2.mpr (by decide), ?_, ?_⟩
  · exact ((claim_C3_thm fhShared photoDoc "2024-05-03").2.2 "2024-05-02"
      "2024-05-01" [] (by decide) (by decide)).1.mpr (by decide)
  · exact ((claim_C3_thm fhDistinct photoDoc "2024-05-03").2.2 "2024-05-02"
      "2024-05-01" [] (by decide) (by decide)).2.mpr (by decide)

end DgpParsers
